import Mathlib

/-!
Shallow embedding of the batch-normalization code in
`chapter04_convolutional-neural-networks/cnn-batch-norm-scratch.ipynb`.

Multi-dimensional arrays (`mxnet.nd` arrays) are modelled as a shape
(list of dimension sizes) together with a total valuation from
multi-indices to real numbers; constructors `mk1`, `mk2`, `mk4` build
the 1-, 2- and 4-dimensional arrays the notebook uses, returning `0`
outside the nominal index range.  Floating-point arithmetic is idealized
as real arithmetic.  The global dictionaries `_BN_MOVING_MEANS` and
`_BN_MOVING_VARS` are modelled by the explicit state `BNState`; a Python
exception is modelled by an `Except.error` result paired with the state
as it was when the exception was raised (the source raises before any
dictionary mutation).
-/

noncomputable section

structure NDArray where
  shape : List ℕ
  val : List ℕ → ℝ

def mk1 (d : ℕ) (f : ℕ → ℝ) : NDArray :=
  ⟨[d], fun ix => match ix with | [j] => f j | _ => 0⟩

def mk2 (n d : ℕ) (f : ℕ → ℕ → ℝ) : NDArray :=
  ⟨[n, d], fun ix => match ix with | [i, j] => f i j | _ => 0⟩

def mk4 (n c h w : ℕ) (f : ℕ → ℕ → ℕ → ℕ → ℝ) : NDArray :=
  ⟨[n, c, h, w], fun ix => match ix with | [i, c', y, x] => f i c' y x | _ => 0⟩

/-- Elementwise multiplication of an array by a scalar (`A * momentum`). -/
def NDArray.smul (A : NDArray) (c : ℝ) : NDArray :=
  ⟨A.shape, fun ix => A.val ix * c⟩

/-- Elementwise sum of two arrays of the same shape. -/
def NDArray.add2 (A B : NDArray) : NDArray :=
  ⟨A.shape, fun ix => A.val ix + B.val ix⟩

/-- `nd.mean(X, axis=0)` for a rank-2 array of shape `[n, d]`, at feature `j`. -/
def denseMean (n : ℕ) (X : ℕ → ℕ → ℝ) (j : ℕ) : ℝ :=
  (∑ i ∈ Finset.range n, X i j) / (n : ℝ)

/-- `nd.mean((X - mean) ** 2, axis=0)` for a rank-2 array of shape `[n, d]`,
at feature `j`: the population variance over axis 0. -/
def denseVar (n : ℕ) (X : ℕ → ℕ → ℝ) (j : ℕ) : ℝ :=
  (∑ i ∈ Finset.range n, (X i j - denseMean n X j) ^ 2) / (n : ℝ)

/-- `nd.mean(X, axis=(0, 2, 3))` for a rank-4 array of shape `[n, c, h, w]`,
at channel `c'`. -/
def convMean (n h w : ℕ) (X : ℕ → ℕ → ℕ → ℕ → ℝ) (c' : ℕ) : ℝ :=
  (∑ i ∈ Finset.range n, ∑ y ∈ Finset.range h, ∑ x ∈ Finset.range w, X i c' y x) /
    ((n : ℝ) * (h : ℝ) * (w : ℝ))

/-- `nd.mean((X - mean.reshape((1, C, 1, 1))) ** 2, axis=(0, 2, 3))` for a
rank-4 array of shape `[n, c, h, w]`, at channel `c'`: the population
variance over axes 0, 2, 3. -/
def convVar (n h w : ℕ) (X : ℕ → ℕ → ℕ → ℕ → ℝ) (c' : ℕ) : ℝ :=
  (∑ i ∈ Finset.range n, ∑ y ∈ Finset.range h, ∑ x ∈ Finset.range w,
      (X i c' y x - convMean n h w X c') ^ 2) /
    ((n : ℝ) * (h : ℝ) * (w : ℝ))

/-- The ValueError message of `pure_batch_norm` for inputs of invalid rank. -/
def pure_invalid_msg : String := "only supports dense or 2dconv"

/-- `pure_batch_norm(X, gamma, beta, eps)` from the notebook: the stateless
reference batch normalization.  Rank 2 normalizes per feature over axis 0;
rank 4 per channel over axes 0, 2, 3; any other rank raises ValueError. -/
def pure_batch_norm (X gamma beta : NDArray) (eps : ℝ) : Except String NDArray :=
  match X.shape with
  | [n, d] =>
    let mean : ℕ → ℝ := denseMean n (fun i j => X.val [i, j])
    let variance : ℕ → ℝ := denseVar n (fun i j => X.val [i, j])
    Except.ok (mk2 n d (fun i j =>
      gamma.val [j] * ((X.val [i, j] - mean j) * (1.0 : ℝ) / Real.sqrt (variance j + eps)) +
        beta.val [j]))
  | [n, c, h, w] =>
    let mean : ℕ → ℝ := convMean n h w (fun i c' y x => X.val [i, c', y, x])
    let variance : ℕ → ℝ := convVar n h w (fun i c' y x => X.val [i, c', y, x])
    Except.ok (mk4 n c h w (fun i c' y x =>
      gamma.val [c'] *
          ((X.val [i, c', y, x] - mean c') * (1.0 : ℝ) / Real.sqrt (variance c' + eps)) +
        beta.val [c']))
  | _ => Except.error pure_invalid_msg

/-- The global dictionaries `_BN_MOVING_MEANS` and `_BN_MOVING_VARS`,
each a mapping from `scope_name` to a stored statistics array. -/
structure BNState where
  moving_means : String → Option NDArray
  moving_vars : String → Option NDArray

/-- The state before any call: both dictionaries empty. -/
def BNState.empty : BNState := ⟨fun _ => none, fun _ => none⟩

/-- The moving-statistics update of `batch_norm` for one dictionary:
if `scope_name` has no entry the entry becomes the batch statistic;
otherwise it becomes `old * momentum + stat * (1.0 - momentum)`. -/
def dictUpdate (dict : String → Option NDArray) (scope_name : String) (stat : NDArray)
    (momentum : ℝ) : String → Option NDArray := fun s' =>
  if s' = scope_name then
    match dict scope_name with
    | none => some stat
    | some old => some ((old.smul momentum).add2 (stat.smul (1 - momentum)))
  else dict s'

/-- The ValueError message of `batch_norm` for inputs of invalid rank. -/
def invalid_shape_msg : String :=
  "the input data shape should be one of:\n" ++
  "dense: (batch size, # of features)\n" ++
  "2d conv: (batch size, # of features, height, width)"

/-- The KeyError raised by an inference-mode call whose `scope_name` has no
entry in the moving-statistics dictionaries. -/
def missing_stats_msg (scope_name : String) : String := "KeyError: " ++ scope_name

/-- `batch_norm(X, gamma, beta, momentum, eps, scope_name, is_training)` from
the notebook.  The result pairs the returned array (or the raised error) with
the moving-statistics dictionaries after the call; on an error path the
dictionaries are those at the moment the exception was raised.  The `debug`
parameter of the source only prints and is omitted. -/
def batch_norm (X gamma beta : NDArray) (momentum : ℝ) (eps : ℝ) (scope_name : String)
    ( is_training : Bool) (st : BNState) : Except String NDArray × BNState :=
  match X.shape with
  | [n, d] =>
    let mean : ℕ → ℝ := denseMean n (fun i j => X.val [i, j])
    let variance : ℕ → ℝ := denseVar n (fun i j => X.val [i, j])
    let X_hatE : Except String (ℕ → ℕ → ℝ) :=
      if is_training then
        Except.ok (fun i j => (X.val [i, j] - mean j) * (1.0 : ℝ) / Real.sqrt (variance j + eps))
      else
        match st.moving_means scope_name, st.moving_vars scope_name with
        | some m, some v =>
          Except.ok (fun i j =>
            (X.val [i, j] - m.val [j]) * (1.0 : ℝ) / Real.sqrt (v.val [j] + eps))
        | _, _ => Except.error (missing_stats_msg scope_name)
    match X_hatE with
    | Except.error e => (Except.error e, st)
    | Except.ok X_hat =>
      let out := mk2 n d (fun i j => gamma.val [j] * X_hat i j + beta.val [j])
      (Except.ok out,
       ⟨dictUpdate st.moving_means scope_name (mk1 d mean) momentum,
        dictUpdate st.moving_vars scope_name (mk1 d variance) momentum⟩)
  | [n, c, h, w] =>
    let mean : ℕ → ℝ := convMean n h w (fun i c' y x => X.val [i, c', y, x])
    let variance : ℕ → ℝ := convVar n h w (fun i c' y x => X.val [i, c', y, x])
    let X_hatE : Except String (ℕ → ℕ → ℕ → ℕ → ℝ) :=
      if is_training then
        Except.ok (fun i c' y x =>
          (X.val [i, c', y, x] - mean c') * (1.0 : ℝ) / Real.sqrt (variance c' + eps))
      else
        match st.moving_means scope_name, st.moving_vars scope_name with
        | some m, some v =>
          Except.ok (fun i c' y x =>
            (X.val [i, c', y, x] - m.val [c']) * (1.0 : ℝ) / Real.sqrt (v.val [c'] + eps))
        | _, _ => Except.error (missing_stats_msg scope_name)
    match X_hatE with
    | Except.error e => (Except.error e, st)
    | Except.ok X_hat =>
      let out := mk4 n c h w (fun i c' y x => gamma.val [c'] * X_hat i c' y x + beta.val [c'])
      (Except.ok out,
       ⟨dictUpdate st.moving_means scope_name (mk1 c mean) momentum,
        dictUpdate st.moving_vars scope_name (mk1 c variance) momentum⟩)
  | _ => (Except.error invalid_shape_msg, st)

/-- The batch-mean array `batch_norm` computes for a valid-rank input
(shape `[d]` for rank-2 input, `[c]` for rank-4 input). -/
def batchMeanArr (X : NDArray) : NDArray :=
  match X.shape with
  | [n, d] => mk1 d (denseMean n (fun i j => X.val [i, j]))
  | [n, c, h, w] => mk1 c (convMean n h w (fun i c' y x => X.val [i, c', y, x]))
  | _ => ⟨[], fun _ => 0⟩

/-- The batch-variance array `batch_norm` computes for a valid-rank input. -/
def batchVarArr (X : NDArray) : NDArray :=
  match X.shape with
  | [n, d] => mk1 d (denseVar n (fun i j => X.val [i, j]))
  | [n, c, h, w] => mk1 c (convVar n h w (fun i c' y x => X.val [i, c', y, x]))
  | _ => ⟨[], fun _ => 0⟩

/-- The notebook's rank-2 test input `A = nd.array([1,7,5,4,6,10]).reshape((3,2))`. -/
def Aval : ℕ → ℕ → ℝ := fun i j =>
  match i, j with
  | 0, 0 => 1
  | 0, 1 => 7
  | 1, 0 => 5
  | 1, 1 => 4
  | 2, 0 => 6
  | 2, 1 => 10
  | _, _ => 0

def A0 : NDArray := mk2 3 2 Aval

/-- The notebook's `gamma = nd.array([1,1])`. -/
def g1 : NDArray := mk1 2 (fun _ => 1)

/-- The notebook's `beta = nd.array([0,0])`. -/
def b0 : NDArray := mk1 2 (fun _ => 0)

/-- A rank-3 array, an invalid input for batch normalization. -/
def R3 : NDArray := ⟨[2, 2, 2], fun _ => 0⟩

/-- A stored moving-mean array used to exercise inference mode. -/
def stM : NDArray := mk1 2 (fun _ => 5)

/-- A stored moving-variance array used to exercise inference mode. -/
def stV : NDArray := mk1 2 (fun _ => 2)

/-- A state whose dictionaries hold `stM`/`stV` under every scope name. -/
def stFull : BNState := ⟨fun _ => some stM, fun _ => some stV⟩

end

theorem real_scientific_one : (1.0 : ℝ) = 1 := by norm_num

theorem dictUpdate_ne (dict : String → Option NDArray) (scope_name : String) (stat : NDArray)
    (momentum : ℝ) (s' : String) (h : s' ≠ scope_name) :
    dictUpdate dict scope_name stat momentum s' = dict s' := by
  simp [dictUpdate, h]

theorem dictUpdate_self (dict : String → Option NDArray) (scope_name : String) (stat : NDArray)
    (momentum : ℝ) :
    dictUpdate dict scope_name stat momentum scope_name =
      (match dict scope_name with
       | none => some stat
       | some old => some ((old.smul momentum).add2 (stat.smul (1 - momentum)))) := by
  simp [dictUpdate]

/-- Whenever `batch_norm` returns a value, the state after the call is the
`dictUpdate` of both dictionaries at `scope_name` with the batch statistics. -/
theorem batch_norm_ok_snd (X gamma beta : NDArray) (momentum eps : ℝ) (scope_name : String)
    (t : Bool) (st : BNState) (out : NDArray)
    (h : (batch_norm X gamma beta momentum eps scope_name t st).1 = Except.ok out) :
    (batch_norm X gamma beta momentum eps scope_name t st).2 =
      ⟨dictUpdate st.moving_means scope_name (batchMeanArr X) momentum,
       dictUpdate st.moving_vars scope_name (batchVarArr X) momentum⟩ := by
  obtain ⟨sh, v⟩ := X
  rcases sh with _ | ⟨a, _ | ⟨b, _ | ⟨c, _ | ⟨d, _ | ⟨e, tl⟩⟩⟩⟩⟩
  · simp [batch_norm] at h
  · simp [batch_norm] at h
  · cases t
    · rcases hm : st.moving_means scope_name with _ | m
      · simp [batch_norm, hm] at h
      · rcases hv : st.moving_vars scope_name with _ | vv
        · simp [batch_norm, hm, hv] at h
        · simp [batch_norm, hm, hv, batchMeanArr, batchVarArr]
    · simp [batch_norm, batchMeanArr, batchVarArr]
  · simp [batch_norm] at h
  · cases t
    · rcases hm : st.moving_means scope_name with _ | m
      · simp [batch_norm, hm] at h
      · rcases hv : st.moving_vars scope_name with _ | vv
        · simp [batch_norm, hm, hv] at h
        · simp [batch_norm, hm, hv, batchMeanArr, batchVarArr]
    · simp [batch_norm, batchMeanArr, batchVarArr]
  · simp [batch_norm] at h

/-- Any `batch_norm` call either leaves the state unchanged (error paths) or
performs the `dictUpdate` of both dictionaries at `scope_name`. -/
theorem batch_norm_snd_cases (X gamma beta : NDArray) (momentum eps : ℝ) (scope_name : String)
    (t : Bool) (st : BNState) :
    (batch_norm X gamma beta momentum eps scope_name t st).2 = st ∨
    (batch_norm X gamma beta momentum eps scope_name t st).2 =
      ⟨dictUpdate st.moving_means scope_name (batchMeanArr X) momentum,
       dictUpdate st.moving_vars scope_name (batchVarArr X) momentum⟩ := by
  obtain ⟨sh, v⟩ := X
  rcases sh with _ | ⟨a, _ | ⟨b, _ | ⟨c, _ | ⟨d, _ | ⟨e, tl⟩⟩⟩⟩⟩
  · exact Or.inl rfl
  · exact Or.inl rfl
  · cases t
    · rcases hm : st.moving_means scope_name with _ | m
      · exact Or.inl (by simp [batch_norm, hm])
      · rcases hv : st.moving_vars scope_name with _ | vv
        · exact Or.inl (by simp [batch_norm, hm, hv])
        · exact Or.inr (by simp [batch_norm, hm, hv, batchMeanArr, batchVarArr])
    · exact Or.inr (by simp [batch_norm, batchMeanArr, batchVarArr])
  · exact Or.inl rfl
  · cases t
    · rcases hm : st.moving_means scope_name with _ | m
      · exact Or.inl (by simp [batch_norm, hm])
      · rcases hv : st.moving_vars scope_name with _ | vv
        · exact Or.inl (by simp [batch_norm, hm, hv])
        · exact Or.inr (by simp [batch_norm, hm, hv, batchMeanArr, batchVarArr])
    · exact Or.inr (by simp [batch_norm, batchMeanArr, batchVarArr])
  · exact Or.inl rfl


/-- C4: for every input `X` whose rank is neither 2 nor 4, `batch_norm` fails
with the invalid-input ValueError whose message names the two accepted shapes
(dense and 2d conv), and never returns a value. -/
theorem c4_invalid_rank_error (X gamma beta : NDArray) (momentum eps : ℝ)
    (scope_name : String) (t : Bool) (st : BNState)
    (h2 : X.shape.length ≠ 2) (h4 : X.shape.length ≠ 4) :
    (batch_norm X gamma beta momentum eps scope_name t st).1 =
        Except.error invalid_shape_msg ∧
    invalid_shape_msg =
      "the input data shape should be one of:\ndense: (batch size, # of features)\n" ++
        "2d conv: (batch size, # of features, height, width)" ∧
    ∀ out, (batch_norm X gamma beta momentum eps scope_name t st).1 ≠ Except.ok out := by
  obtain ⟨sh, v⟩ := X
  rcases sh with _ | ⟨a, _ | ⟨b, _ | ⟨c, _ | ⟨d, _ | ⟨e, tl⟩⟩⟩⟩⟩
  · exact ⟨rfl, rfl, fun out h => by simp [batch_norm] at h⟩
  · exact ⟨rfl, rfl, fun out h => by simp [batch_norm] at h⟩
  · simp at h2
  · exact ⟨rfl, rfl, fun out h => by simp [batch_norm] at h⟩
  · simp at h4
  · exact ⟨rfl, rfl, fun out h => by simp [batch_norm] at h⟩

/-- C4 witness: a rank-3 input raises the invalid-input ValueError. -/
theorem c4_witness :
    (batch_norm R3 g1 b0 0.9 1 "bn" true BNState.empty).1 =
        Except.error invalid_shape_msg ∧
    invalid_shape_msg =
      "the input data shape should be one of:\ndense: (batch size, # of features)\n" ++
        "2d conv: (batch size, # of features, height, width)" :=
  ⟨(c4_invalid_rank_error R3 g1 b0 0.9 1 "bn" true BNState.empty
      (by decide) (by decide)).1,
   (c4_invalid_rank_error R3 g1 b0 0.9 1 "bn" true BNState.empty
      (by decide) (by decide)).2.1⟩

/-- C10: when `batch_norm` fails because the input rank is neither 2 nor 4,
the moving-statistics state after the call is exactly the state before it:
the ValueError is raised before any dictionary mutation. -/
theorem c10_invalid_rank_preserves_store (X gamma beta : NDArray) (momentum eps : ℝ)
    (scope_name : String) (t : Bool) (st : BNState)
    (h2 : X.shape.length ≠ 2) (h4 : X.shape.length ≠ 4) :
    (batch_norm X gamma beta momentum eps scope_name t st).2 = st ∧
    (batch_norm X gamma beta momentum eps scope_name t st).1 =
      Except.error invalid_shape_msg := by
  obtain ⟨sh, v⟩ := X
  rcases sh with _ | ⟨a, _ | ⟨b, _ | ⟨c, _ | ⟨d, _ | ⟨e, tl⟩⟩⟩⟩⟩
  · exact ⟨rfl, rfl⟩
  · exact ⟨rfl, rfl⟩
  · simp at h2
  · exact ⟨rfl, rfl⟩
  · simp at h4
  · exact ⟨rfl, rfl⟩

/-- C10 witness: a failing rank-3 call leaves the empty store empty. -/
theorem c10_witness :
    (batch_norm R3 g1 b0 0.9 1 "bn" true BNState.empty).2 = BNState.empty :=
  (c10_invalid_rank_preserves_store R3 g1 b0 0.9 1 "bn" true BNState.empty
    (by decide) (by decide)).1

/-- C8: a `batch_norm` call with layer identifier `scope_name` modifies at most
the entries keyed `scope_name`: for every other identifier `s'` the stored
moving mean and moving variance are unchanged. -/
theorem c8_frame_other_scopes (X gamma beta : NDArray) (momentum eps : ℝ)
    (scope_name : String) (t : Bool) (st : BNState) (s' : String)
    (hne : s' ≠ scope_name) :
    ((batch_norm X gamma beta momentum eps scope_name t st).2).moving_means s' =
        st.moving_means s' ∧
    ((batch_norm X gamma beta momentum eps scope_name t st).2).moving_vars s' =
        st.moving_vars s' := by
  rcases batch_norm_snd_cases X gamma beta momentum eps scope_name t st with h | h
  · rw [h]; exact ⟨rfl, rfl⟩
  · rw [h]
    exact ⟨dictUpdate_ne st.moving_means scope_name (batchMeanArr X) momentum s' hne,
           dictUpdate_ne st.moving_vars scope_name (batchVarArr X) momentum s' hne⟩

/-- C8 witness: a call under "bn" leaves the entries of "other" unchanged. -/
theorem c8_witness :
    ((batch_norm A0 g1 b0 0.9 1 "bn" true stFull).2).moving_means "other" =
        stFull.moving_means "other" ∧
    ((batch_norm A0 g1 b0 0.9 1 "bn" true stFull).2).moving_vars "other" =
        stFull.moving_vars "other" :=
  c8_frame_other_scopes A0 g1 b0 0.9 1 "bn" true stFull "other" (by decide)

/-- C9: for every input of rank 2 or rank 4, the value returned by a
training-mode `batch_norm` call is exactly the value `pure_batch_norm`
returns on the same `X`, `gamma`, `beta`, `eps`. -/
theorem c9_training_refines_pure (X gamma beta : NDArray) (momentum eps : ℝ)
    (scope_name : String) (st : BNState)
    (hr : X.shape.length = 2 ∨ X.shape.length = 4) :
    (batch_norm X gamma beta momentum eps scope_name true st).1 =
      pure_batch_norm X gamma beta eps := by
  obtain ⟨sh, v⟩ := X
  rcases sh with _ | ⟨a, _ | ⟨b, _ | ⟨c, _ | ⟨d, _ | ⟨e, tl⟩⟩⟩⟩⟩
  · simp at hr
  · simp at hr
  · rfl
  · simp at hr
  · rfl
  · simp at hr

/-- C9 witness: on the notebook's 3×2 example the two functions agree. -/
theorem c9_witness :
    (batch_norm A0 g1 b0 0.9 1 "bn" true BNState.empty).1 =
      pure_batch_norm A0 g1 b0 1 :=
  c9_training_refines_pure A0 g1 b0 0.9 1 "bn" BNState.empty (Or.inl rfl)

/-- C7: for every positive `eps`, the divisor `sqrt(variance + eps)` used by
the training-mode normalization of `batch_norm` and `pure_batch_norm` is
strictly positive (hence nonzero) for both the rank-2 and the rank-4 batch
variance, including when that variance is zero. -/
theorem c7_divisor_positive (eps : ℝ) (heps : 0 < eps) :
    (∀ (n : ℕ) (X : ℕ → ℕ → ℝ) (j : ℕ),
      0 < Real.sqrt (denseVar n X j + eps) ∧ Real.sqrt (denseVar n X j + eps) ≠ 0) ∧
    (∀ (n h w : ℕ) (X : ℕ → ℕ → ℕ → ℕ → ℝ) (c' : ℕ),
      0 < Real.sqrt (convVar n h w X c' + eps) ∧
        Real.sqrt (convVar n h w X c' + eps) ≠ 0) := by
  constructor
  · intro n X j
    have hv : 0 ≤ denseVar n X j := by
      apply div_nonneg _ (Nat.cast_nonneg n)
      exact Finset.sum_nonneg fun i _ => sq_nonneg _
    have hpos : 0 < denseVar n X j + eps := by linarith
    exact ⟨Real.sqrt_pos.mpr hpos, (Real.sqrt_pos.mpr hpos).ne'⟩
  · intro n h w X c'
    have hv : 0 ≤ convVar n h w X c' := by
      apply div_nonneg
      · refine Finset.sum_nonneg fun i _ => ?_
        refine Finset.sum_nonneg fun y _ => ?_
        exact Finset.sum_nonneg fun x _ => sq_nonneg _
      · positivity
    have hpos : 0 < convVar n h w X c' + eps := by linarith
    exact ⟨Real.sqrt_pos.mpr hpos, (Real.sqrt_pos.mpr hpos).ne'⟩

/-- C7 witness: with `eps = 1` the divisor is positive on the notebook's
3×2 example at feature 0. -/
theorem c7_witness :
    0 < Real.sqrt (denseVar 3 Aval 0 + 1) ∧ Real.sqrt (denseVar 3 Aval 0 + 1) ≠ 0 :=
  (c7_divisor_positive 1 one_pos).1 3 Aval 0

/-- C1: for every activation batch of rank 2 or rank 4, every per-feature
`gamma`, `beta` and every `eps`, a training-mode `batch_norm` call returns an
array of the same shape as `X` whose entries equal
`gamma * (X - mean) / sqrt(variance + eps) + beta`, with the batch mean and
the batch variance reduced over axis 0 for rank 2 and over axes 0, 2, 3 for
rank 4, broadcast across the reduced axes. -/
theorem c1_batch_norm_training_output :
    (∀ (X gamma beta : NDArray) (momentum eps : ℝ) (scope_name : String) (st : BNState)
        (n d i j : ℕ), X.shape = [n, d] → i < n → j < d →
      ((batch_norm X gamma beta momentum eps scope_name true st).1).map
          (fun out => (out.shape, out.val [i, j])) =
        Except.ok (X.shape,
          gamma.val [j] * ((X.val [i, j] - denseMean n (fun a b => X.val [a, b]) j) /
            Real.sqrt (denseVar n (fun a b => X.val [a, b]) j + eps)) + beta.val [j])) ∧
    (∀ (X gamma beta : NDArray) (momentum eps : ℝ) (scope_name : String) (st : BNState)
        (n c h w i cc y x : ℕ), X.shape = [n, c, h, w] →
      i < n → cc < c → y < h → x < w →
      ((batch_norm X gamma beta momentum eps scope_name true st).1).map
          (fun out => (out.shape, out.val [i, cc, y, x])) =
        Except.ok (X.shape,
          gamma.val [cc] * ((X.val [i, cc, y, x] -
              convMean n h w (fun a b e f => X.val [a, b, e, f]) cc) /
            Real.sqrt (convVar n h w (fun a b e f => X.val [a, b, e, f]) cc + eps)) +
            beta.val [cc])) := by
  constructor
  · intro X gamma beta momentum eps scope_name st n d i j hsh hi hj
    obtain ⟨sh, v⟩ := X
    dsimp only at hsh
    subst hsh
    simp [batch_norm, mk2, real_scientific_one, Except.map]
  · intro X gamma beta momentum eps scope_name st n c h w i cc y x hsh hi hc hy hx
    obtain ⟨sh, v⟩ := X
    dsimp only at hsh
    subst hsh
    simp [batch_norm, mk4, real_scientific_one, Except.map]

/-- C1 witness: the notebook's 3×2 example at entry (0, 1). -/
theorem c1_witness :
    ((batch_norm A0 g1 b0 0.9 1 "bn" true BNState.empty).1).map
        (fun out => (out.shape, out.val [0, 1])) =
      Except.ok (A0.shape,
        g1.val [1] * ((A0.val [0, 1] - denseMean 3 (fun a b => A0.val [a, b]) 1) /
          Real.sqrt (denseVar 3 (fun a b => A0.val [a, b]) 1 + 1)) + b0.val [1]) :=
  (c1_batch_norm_training_output).1 A0 g1 b0 0.9 1 "bn" BNState.empty 3 2 0 1 rfl
    (by decide) (by decide)

/-- C3: the batch statistics a training-mode call stores for a fresh layer
identifier are exactly the per-feature mean over axis 0 (rank 2), or the
per-channel mean over axes 0, 2, 3 (rank 4), and the population variance —
mean of squared deviations with divisor equal to the count of reduced
elements (`n`, or `n * h * w`), not that count minus one. -/
theorem c3_batch_statistics_axes :
    (∀ (X gamma beta : NDArray) (momentum eps : ℝ) (scope_name : String) (st : BNState)
        (n d j : ℕ), X.shape = [n, d] → j < d →
      st.moving_means scope_name = none → st.moving_vars scope_name = none →
      (((batch_norm X gamma beta momentum eps scope_name true st).2).moving_means
            scope_name).map (fun M => (M.shape, M.val [j])) =
          some ([d], (∑ i ∈ Finset.range n, X.val [i, j]) / (n : ℝ)) ∧
      (((batch_norm X gamma beta momentum eps scope_name true st).2).moving_vars
            scope_name).map (fun V => (V.shape, V.val [j])) =
          some ([d], (∑ i ∈ Finset.range n,
              (X.val [i, j] - (∑ i' ∈ Finset.range n, X.val [i', j]) / (n : ℝ)) ^ 2) /
            (n : ℝ))) ∧
    (∀ (X gamma beta : NDArray) (momentum eps : ℝ) (scope_name : String) (st : BNState)
        (n c h w cc : ℕ), X.shape = [n, c, h, w] → cc < c →
      st.moving_means scope_name = none → st.moving_vars scope_name = none →
      (((batch_norm X gamma beta momentum eps scope_name true st).2).moving_means
            scope_name).map (fun M => (M.shape, M.val [cc])) =
          some ([c], (∑ i ∈ Finset.range n, ∑ y ∈ Finset.range h, ∑ x ∈ Finset.range w,
              X.val [i, cc, y, x]) / ((n : ℝ) * (h : ℝ) * (w : ℝ))) ∧
      (((batch_norm X gamma beta momentum eps scope_name true st).2).moving_vars
            scope_name).map (fun V => (V.shape, V.val [cc])) =
          some ([c], (∑ i ∈ Finset.range n, ∑ y ∈ Finset.range h, ∑ x ∈ Finset.range w,
              (X.val [i, cc, y, x] -
                (∑ i' ∈ Finset.range n, ∑ y' ∈ Finset.range h, ∑ x' ∈ Finset.range w,
                  X.val [i', cc, y', x']) / ((n : ℝ) * (h : ℝ) * (w : ℝ))) ^ 2) /
            ((n : ℝ) * (h : ℝ) * (w : ℝ)))) := by
  constructor
  · intro X gamma beta momentum eps scope_name st n d j hsh hj hm hv
    obtain ⟨sh, v⟩ := X
    dsimp only at hsh
    subst hsh
    constructor
    · simp [batch_norm, dictUpdate, hm, mk1, denseMean]
    · simp [batch_norm, dictUpdate, hv, mk1, denseVar, denseMean]
  · intro X gamma beta momentum eps scope_name st n c h w cc hsh hc hm hv
    obtain ⟨sh, v⟩ := X
    dsimp only at hsh
    subst hsh
    constructor
    · simp [batch_norm, dictUpdate, hm, mk1, convMean]
    · simp [batch_norm, dictUpdate, hv, mk1, convVar, convMean]

/-- C3 witness: the notebook's 3×2 example at feature 1 with a fresh store. -/
theorem c3_witness :
    (((batch_norm A0 g1 b0 0.9 1 "bn" true BNState.empty).2).moving_means "bn").map
        (fun M => (M.shape, M.val [1])) =
      some ([2], (∑ i ∈ Finset.range 3, A0.val [i, 1]) / ((3 : ℕ) : ℝ)) ∧
    (((batch_norm A0 g1 b0 0.9 1 "bn" true BNState.empty).2).moving_vars "bn").map
        (fun V => (V.shape, V.val [1])) =
      some ([2], (∑ i ∈ Finset.range 3,
          (A0.val [i, 1] - (∑ i' ∈ Finset.range 3, A0.val [i', 1]) / ((3 : ℕ) : ℝ)) ^ 2) /
        ((3 : ℕ) : ℝ)) :=
  (c3_batch_statistics_axes).1 A0 g1 b0 0.9 1 "bn" BNState.empty 3 2 1 rfl
    (by decide) rfl rfl

/-- C5: an inference-mode call whose layer identifier has stored running
statistics normalizes `X` with the stored running mean and variance (not the
batch statistics of `X`); an inference-mode call with no stored entry raises
the uninitialized-lookup error instead of returning a value, leaving the
store unchanged. -/
theorem c5_inference_uses_running_stats :
    (∀ (X gamma beta : NDArray) (momentum eps : ℝ) (scope_name : String) (st : BNState)
        (m vr : NDArray) (n d i j : ℕ),
      X.shape = [n, d] → st.moving_means scope_name = some m →
      st.moving_vars scope_name = some vr → i < n → j < d →
      ((batch_norm X gamma beta momentum eps scope_name false st).1).map
          (fun out => out.val [i, j]) =
        Except.ok (gamma.val [j] * ((X.val [i, j] - m.val [j]) /
          Real.sqrt (vr.val [j] + eps)) + beta.val [j])) ∧
    (∀ (X gamma beta : NDArray) (momentum eps : ℝ) (scope_name : String) (st : BNState)
        (m vr : NDArray) (n c h w i cc y x : ℕ),
      X.shape = [n, c, h, w] → st.moving_means scope_name = some m →
      st.moving_vars scope_name = some vr → i < n → cc < c → y < h → x < w →
      ((batch_norm X gamma beta momentum eps scope_name false st).1).map
          (fun out => out.val [i, cc, y, x]) =
        Except.ok (gamma.val [cc] * ((X.val [i, cc, y, x] - m.val [cc]) /
          Real.sqrt (vr.val [cc] + eps)) + beta.val [cc])) ∧
    (∀ (X gamma beta : NDArray) (momentum eps : ℝ) (scope_name : String) (st : BNState),
      (X.shape.length = 2 ∨ X.shape.length = 4) →
      (st.moving_means scope_name = none ∨ st.moving_vars scope_name = none) →
      (batch_norm X gamma beta momentum eps scope_name false st).1 =
          Except.error (missing_stats_msg scope_name) ∧
      (batch_norm X gamma beta momentum eps scope_name false st).2 = st) := by
  refine ⟨?_, ?_, ?_⟩
  · intro X gamma beta momentum eps scope_name st m vr n d i j hsh hm hv hi hj
    obtain ⟨sh, v⟩ := X
    dsimp only at hsh
    subst hsh
    simp [batch_norm, hm, hv, mk2, real_scientific_one, Except.map]
  · intro X gamma beta momentum eps scope_name st m vr n c h w i cc y x hsh hm hv hi hc hy hx
    obtain ⟨sh, v⟩ := X
    dsimp only at hsh
    subst hsh
    simp [batch_norm, hm, hv, mk4, real_scientific_one, Except.map]
  · intro X gamma beta momentum eps scope_name st hr hmiss
    obtain ⟨sh, v⟩ := X
    dsimp only at hr
    rcases sh with _ | ⟨a, _ | ⟨b, _ | ⟨c, _ | ⟨d, _ | ⟨e, tl⟩⟩⟩⟩⟩
    · simp at hr
    · simp at hr
    · rcases hm : st.moving_means scope_name with _ | m
      · exact ⟨by simp [batch_norm, hm], by simp [batch_norm, hm]⟩
      · rcases hv : st.moving_vars scope_name with _ | vr
        · exact ⟨by simp [batch_norm, hm, hv], by simp [batch_norm, hm, hv]⟩
        · rcases hmiss with h | h
          · rw [h] at hm; cases hm
          · rw [h] at hv; cases hv
    · simp at hr
    · rcases hm : st.moving_means scope_name with _ | m
      · exact ⟨by simp [batch_norm, hm], by simp [batch_norm, hm]⟩
      · rcases hv : st.moving_vars scope_name with _ | vr
        · exact ⟨by simp [batch_norm, hm, hv], by simp [batch_norm, hm, hv]⟩
        · rcases hmiss with h | h
          · rw [h] at hm; cases hm
          · rw [h] at hv; cases hv
    · simp at hr

/-- C5 witness: an inference call under a populated store uses the stored
statistics, at entry (0, 1) of the notebook's 3×2 example. -/
theorem c5_witness :
    ((batch_norm A0 g1 b0 0.9 1 "bn" false stFull).1).map (fun out => out.val [0, 1]) =
      Except.ok (g1.val [1] * ((A0.val [0, 1] - stM.val [1]) /
        Real.sqrt (stV.val [1] + 1)) + b0.val [1]) :=
  (c5_inference_uses_running_stats).1 A0 g1 b0 0.9 1 "bn" stFull stM stV 3 2 0 1 rfl rfl rfl
    (by decide) (by decide)

/-- A training-mode call with valid-rank input always updates both
dictionaries at `scope_name` with the batch statistics of `X`. -/
theorem batch_norm_train_snd (X gamma beta : NDArray) (momentum eps : ℝ)
    (scope_name : String) (st : BNState)
    (hr : X.shape.length = 2 ∨ X.shape.length = 4) :
    (batch_norm X gamma beta momentum eps scope_name true st).2 =
      ⟨dictUpdate st.moving_means scope_name (batchMeanArr X) momentum,
       dictUpdate st.moving_vars scope_name (batchVarArr X) momentum⟩ := by
  obtain ⟨sh, v⟩ := X
  dsimp only at hr
  rcases sh with _ | ⟨a, _ | ⟨b, _ | ⟨c, _ | ⟨d, _ | ⟨e, tl⟩⟩⟩⟩⟩
  · simp at hr
  · simp at hr
  · simp [batch_norm, batchMeanArr, batchVarArr]
  · simp at hr
  · simp [batch_norm, batchMeanArr, batchVarArr]
  · simp at hr

/-- C6: starting from a store with no entry for `scope_name`, after two
successive training-mode calls with batch statistics `m1, v1` then `m2, v2`,
the stored running mean is elementwise `m1 * momentum + m2 * (1 - momentum)`
and the stored running variance is `v1 * momentum + v2 * (1 - momentum)`. -/
theorem c6_two_call_running_decay (X1 X2 gammaA betaA gammaB betaB : NDArray)
    (momentum eps : ℝ) (scope_name : String) (st : BNState) (ix : List ℕ)
    (hm : st.moving_means scope_name = none) (hv : st.moving_vars scope_name = none)
    (hr1 : X1.shape.length = 2 ∨ X1.shape.length = 4)
    (hr2 : X2.shape.length = 2 ∨ X2.shape.length = 4) :
    ((((batch_norm X2 gammaB betaB momentum eps scope_name true
          (batch_norm X1 gammaA betaA momentum eps scope_name true st).2).2).moving_means
        scope_name).map (fun M => M.val ix) =
      some ((batchMeanArr X1).val ix * momentum +
        (batchMeanArr X2).val ix * (1 - momentum))) ∧
    ((((batch_norm X2 gammaB betaB momentum eps scope_name true
          (batch_norm X1 gammaA betaA momentum eps scope_name true st).2).2).moving_vars
        scope_name).map (fun V => V.val ix) =
      some ((batchVarArr X1).val ix * momentum +
        (batchVarArr X2).val ix * (1 - momentum))) := by
  rw [batch_norm_train_snd X1 gammaA betaA momentum eps scope_name st hr1]
  rw [batch_norm_train_snd X2 gammaB betaB momentum eps scope_name _ hr2]
  constructor
  · simp [dictUpdate, hm, NDArray.smul, NDArray.add2]
  · simp [dictUpdate, hv, NDArray.smul, NDArray.add2]

/-- C6 witness: two training calls on the notebook's 3×2 example under a fresh
identifier, read back at index 0. -/
theorem c6_witness :
    ((((batch_norm A0 g1 b0 0.9 1 "bn" true
          (batch_norm A0 g1 b0 0.9 1 "bn" true BNState.empty).2).2).moving_means "bn").map
        (fun M => M.val [0]) =
      some ((batchMeanArr A0).val [0] * 0.9 + (batchMeanArr A0).val [0] * (1 - 0.9))) ∧
    ((((batch_norm A0 g1 b0 0.9 1 "bn" true
          (batch_norm A0 g1 b0 0.9 1 "bn" true BNState.empty).2).2).moving_vars "bn").map
        (fun V => V.val [0]) =
      some ((batchVarArr A0).val [0] * 0.9 + (batchVarArr A0).val [0] * (1 - 0.9))) :=
  c6_two_call_running_decay A0 A0 g1 b0 g1 b0 0.9 1 "bn" BNState.empty [0] rfl rfl
    (Or.inl rfl) (Or.inl rfl)

/-- C2 counterexample: the claim quantifies over inference-mode calls too, but
an inference-mode call (valid rank-2 input) on a fresh identifier raises the
uninitialized-lookup error and creates no entry, so after the call the running
mean for that identifier is not the call's batch mean — it does not exist. -/
theorem c2_counterexample_inference_fresh :
    (batch_norm A0 g1 b0 0.9 1 "bnX" false BNState.empty).1 =
        Except.error (missing_stats_msg "bnX") ∧
    ((batch_norm A0 g1 b0 0.9 1 "bnX" false BNState.empty).2).moving_means "bnX" = none ∧
    ((batch_norm A0 g1 b0 0.9 1 "bnX" false BNState.empty).2).moving_vars "bnX" = none ∧
    ((batch_norm A0 g1 b0 0.9 1 "bnX" false BNState.empty).2).moving_means "bnX" ≠
      some (batchMeanArr A0) :=
  ⟨rfl, rfl, rfl, fun h => Option.noConfusion h⟩

/-- C2 (amended): on every `batch_norm` call that returns a value — every
training-mode call with valid-rank input, and every inference-mode call whose
entry exists — the store entry for `scope_name` is updated using the batch
statistics of the passed-in `X`: initialized to exactly the batch mean and
variance when absent, otherwise set to
`running * momentum + batch_statistic * (1 - momentum)` elementwise. -/
theorem c2_running_update_on_success (X gamma beta : NDArray) (momentum eps : ℝ)
    (scope_name : String) (t : Bool) (st : BNState) (out : NDArray)
    (h : (batch_norm X gamma beta momentum eps scope_name t st).1 = Except.ok out) :
    ((batch_norm X gamma beta momentum eps scope_name t st).2).moving_means scope_name =
      (match st.moving_means scope_name with
       | none => some (batchMeanArr X)
       | some old =>
         some ((old.smul momentum).add2 ((batchMeanArr X).smul (1 - momentum)))) ∧
    ((batch_norm X gamma beta momentum eps scope_name t st).2).moving_vars scope_name =
      (match st.moving_vars scope_name with
       | none => some (batchVarArr X)
       | some old =>
         some ((old.smul momentum).add2 ((batchVarArr X).smul (1 - momentum)))) := by
  rw [batch_norm_ok_snd X gamma beta momentum eps scope_name t st out h]
  exact ⟨dictUpdate_self _ _ _ _, dictUpdate_self _ _ _ _⟩

/-- C2 witness: a first training call on a fresh identifier stores exactly the
batch statistics of that call. -/
theorem c2_witness :
    ((batch_norm A0 g1 b0 0.9 1 "bn" true BNState.empty).2).moving_means "bn" =
        some (batchMeanArr A0) ∧
    ((batch_norm A0 g1 b0 0.9 1 "bn" true BNState.empty).2).moving_vars "bn" =
        some (batchVarArr A0) := by
  have h := c2_running_update_on_success A0 g1 b0 0.9 1 "bn" true BNState.empty _ rfl
  simpa [BNState.empty] using h
